import Mathlib

/-!
Shallow embedding of the PaokinatorWeb Flask front-end (src/app.py and
src/mod_routes.py) and proofs about its route handlers.

Modelling conventions:
* JSON values are `JVal`; numbers are rationals (the application never
  branches on int/float distinctions).
* The upstream game server is an oracle `Upstream` mapping a request URL
  (and a body, for POST) to either an HTTP response (status code plus an
  optionally JSON-decodable body) or a transport-level exception message
  (`requests.exceptions.RequestException`).  `response.raise_for_status()`
  raises exactly for 4xx/5xx statuses, as in the `requests` library.
* Every route handler returns a `RouteResult`: the HTTP response produced
  (or an uncaught Python exception message), the resulting session, the
  ordered list of upstream calls issued, and the `flash` messages emitted.
* Flask's server-side session is the record `Sess`; `JVal.jnull` stands
  for an absent key.
* `url_for` is modelled without percent-encoding of query values.
-/

set_option maxHeartbeats 1000000

namespace Paokinator

/-- JSON values. Numbers are modelled as rationals. -/
inductive JVal where
  | jnull : JVal
  | jbool : Bool → JVal
  | jnum : ℚ → JVal
  | jstr : String → JVal
  | jarr : List JVal → JVal
  | jobj : List (String × JVal) → JVal

mutual
/-- Boolean equality on JSON values. -/
def beqJ : JVal → JVal → Bool
  | .jnull, .jnull => true
  | .jbool a, .jbool b => a == b
  | .jnum a, .jnum b => a == b
  | .jstr a, .jstr b => a == b
  | .jarr a, .jarr b => beqArrJ a b
  | .jobj a, .jobj b => beqObjJ a b
  | _, _ => false

/-- Boolean equality on JSON arrays. -/
def beqArrJ : List JVal → List JVal → Bool
  | [], [] => true
  | a :: as, b :: bs => beqJ a b && beqArrJ as bs
  | _, _ => false

/-- Boolean equality on JSON object member lists. -/
def beqObjJ : List (String × JVal) → List (String × JVal) → Bool
  | [], [] => true
  | (ka, va) :: as, (kb, vb) :: bs => ka == kb && beqJ va vb && beqObjJ as bs
  | _, _ => false
end

mutual
theorem beqJ_iff : ∀ a b : JVal, beqJ a b = true ↔ a = b
  | .jnull, b => by cases b <;> simp [beqJ]
  | .jbool x, b => by cases b <;> simp [beqJ]
  | .jnum x, b => by cases b <;> simp [beqJ]
  | .jstr x, b => by cases b <;> simp [beqJ]
  | .jarr xs, b => by
      cases b <;> simp [beqJ]
      exact beqArrJ_iff xs _
  | .jobj fs, b => by
      cases b <;> simp [beqJ]
      exact beqObjJ_iff fs _

theorem beqArrJ_iff : ∀ a b : List JVal, beqArrJ a b = true ↔ a = b
  | [], b => by cases b <;> simp [beqArrJ]
  | x :: xs, b => by
      cases b with
      | nil => simp [beqArrJ]
      | cons y ys =>
        simp only [beqArrJ, Bool.and_eq_true, List.cons.injEq]
        exact and_congr (beqJ_iff x y) (beqArrJ_iff xs ys)

theorem beqObjJ_iff : ∀ a b : List (String × JVal), beqObjJ a b = true ↔ a = b
  | [], b => by cases b <;> simp [beqObjJ]
  | (k, v) :: xs, b => by
      cases b with
      | nil => simp [beqObjJ]
      | cons y ys =>
        obtain ⟨ky, vy⟩ := y
        simp only [beqObjJ, Bool.and_eq_true, List.cons.injEq, Prod.mk.injEq, beq_iff_eq]
        rw [beqJ_iff v vy, beqObjJ_iff xs ys, and_assoc]
end

instance : DecidableEq JVal := fun a b => decidable_of_iff _ (beqJ_iff a b)

/-- Python truthiness of a JSON value. -/
def truthy : JVal → Bool
  | .jnull => false
  | .jbool b => b
  | .jnum q => q != 0
  | .jstr s => s != ""
  | .jarr xs => !xs.isEmpty
  | .jobj fs => !fs.isEmpty

/-- Model of `dict.get(k)`: the first binding of `k`, or `None` (`jnull`). -/
def getD (fs : List (String × JVal)) (k : String) : JVal :=
  match fs.lookup k with
  | some v => v
  | none => .jnull

/-- Model of `dict.get(k, dflt)`: the bound value (even if falsy) when the
key is present, else the default. -/
def pyGetDefault (fs : List (String × JVal)) (k : String) (dflt : JVal) : JVal :=
  match fs.lookup k with
  | some v => v
  | none => dflt

/-- Membership test `k in d` for a JSON value (false on non-objects). -/
def hasKey (j : JVal) (k : String) : Bool :=
  match j with
  | .jobj fs => (fs.lookup k).isSome
  | _ => false

/-- Calling `.get` on a Python value: succeeds only on dicts, otherwise it
raises `AttributeError`. -/
def asObj : JVal → Except String (List (String × JVal))
  | .jobj fs => .ok fs
  | _ => .error "AttributeError: object has no attribute get"

/-- Indexing `payload[k]` on a value known to be an object (jnull otherwise). -/
def getJ (j : JVal) (k : String) : JVal :=
  match j with
  | .jobj fs => getD fs k
  | _ => .jnull

/-- Opening brace character (written via its code point). -/
def obrace : Char := Char.ofNat 123

/-- Closing brace character (written via its code point). -/
def cbrace : Char := Char.ofNat 125

/-- Decimal rendering of a rational that has a terminating decimal
expansion; integers render without a point.  Used for JSON serialization
and Python `str()` of numbers. -/
def jsonNum (q : ℚ) : String :=
  if q.den = 1 then toString q.num
  else
    match (List.range 40).find? (fun e => (q * ((10 : ℚ) ^ e)).den = 1) with
    | some e =>
      let n := (q * ((10 : ℚ) ^ e)).num
      let sign := if n < 0 then "-" else ""
      let ds := toString n.natAbs
      let ds := if ds.length ≤ e then String.mk (List.replicate (e + 1 - ds.length) '0') ++ ds else ds
      sign ++ (ds.take (ds.length - e)) ++ "." ++ (ds.drop (ds.length - e))
    | none => toString q.num ++ "/" ++ toString q.den

/-- Python `str()` of a JSON value, as used inside f-strings.  Containers
are abbreviated (no route in the modelled claims interpolates one). -/
def pyStr : JVal → String
  | .jnull => "None"
  | .jbool true => "True"
  | .jbool false => "False"
  | .jnum q => jsonNum q
  | .jstr s => s
  | .jarr _ => "[...]"
  | .jobj _ => String.singleton obrace ++ "..." ++ String.singleton cbrace

/-- Model of Python `str.lower()` (ASCII case mapping, which covers every
string the application compares). -/
def lowerStr (s : String) : String := String.mk (s.toList.map Char.toLower)

/-- Hexadecimal digit for `json.dumps` unicode escapes. -/
def hexDigit (n : Nat) : Char :=
  if n < 10 then Char.ofNat (48 + n) else Char.ofNat (97 + (n - 10))

/-- Four-digit hexadecimal rendering. -/
def hex4 (n : Nat) : String :=
  String.mk [hexDigit (n / 4096 % 16), hexDigit (n / 256 % 16), hexDigit (n / 16 % 16), hexDigit (n % 16)]

/-- Escaping of one character as in `json.dumps` (ensure_ascii). -/
def escChar (c : Char) : String :=
  if c = '"' then "\\\""
  else if c = '\\' then "\\\\"
  else if c = '\n' then "\\n"
  else if c = '\t' then "\\t"
  else if c = '\r' then "\\r"
  else if c = Char.ofNat 8 then "\\b"
  else if c = Char.ofNat 12 then "\\f"
  else if c.toNat < 32 then "\\u" ++ hex4 c.toNat
  else if c.toNat ≤ 126 then String.singleton c
  else if c.toNat < 65536 then "\\u" ++ hex4 c.toNat
  else
    let n := c.toNat - 65536
    "\\u" ++ hex4 (55296 + n / 1024) ++ "\\u" ++ hex4 (56320 + n % 1024)

/-- JSON string literal rendering. -/
def escStr (s : String) : String :=
  "\"" ++ String.join (s.toList.map escChar) ++ "\""

mutual
/-- Model of `json.dumps` with its default separators. -/
def dumps : JVal → String
  | .jnull => "null"
  | .jbool true => "true"
  | .jbool false => "false"
  | .jnum q => jsonNum q
  | .jstr s => escStr s
  | .jarr xs => "[" ++ dumpsArr xs ++ "]"
  | .jobj fs => String.singleton obrace ++ dumpsObj fs ++ String.singleton cbrace

/-- Comma-separated rendering of array elements. -/
def dumpsArr : List JVal → String
  | [] => ""
  | [x] => dumps x
  | x :: y :: xs => dumps x ++ ", " ++ dumpsArr (y :: xs)

/-- Comma-separated rendering of object members. -/
def dumpsObj : List (String × JVal) → String
  | [] => ""
  | [(k, v)] => escStr k ++ ": " ++ dumps v
  | (k, v) :: f :: fs => escStr k ++ ": " ++ dumps v ++ ", " ++ dumpsObj (f :: fs)
end

/-- JSON whitespace characters. -/
def isJsonWs (c : Char) : Bool := c = ' ' || c = '\t' || c = '\n' || c = '\r'

/-- Skip leading JSON whitespace. -/
def skipWs (cs : List Char) : List Char := cs.dropWhile isJsonWs

/-- Value of a hexadecimal digit. -/
def hexVal (c : Char) : Option Nat :=
  if 48 ≤ c.toNat ∧ c.toNat ≤ 57 then some (c.toNat - 48)
  else if 97 ≤ c.toNat ∧ c.toNat ≤ 102 then some (c.toNat - 87)
  else if 65 ≤ c.toNat ∧ c.toNat ≤ 70 then some (c.toNat - 55)
  else none

/-- Parse exactly four hexadecimal digits. -/
def parseHex4 : List Char → Option (Nat × List Char)
  | a :: b :: c :: d :: rest =>
    match hexVal a, hexVal b, hexVal c, hexVal d with
    | some x, some y, some z, some w => some (((x * 16 + y) * 16 + z) * 16 + w, rest)
    | _, _, _, _ => none
  | _ => none

/-- Parse the body of a JSON string literal (after the opening quote),
returning the decoded string and the input after the closing quote.
Surrogate escapes must be properly paired (a lone surrogate, which CPython
would keep, has no `Char` representation and is modelled as a failure). -/
def parseStringBody : Nat → List Char → Option (String × List Char)
  | 0, _ => none
  | _, [] => none
  | fuel + 1, c :: rest =>
    if c = '"' then some ("", rest)
    else if c = '\\' then
      match rest with
      | 'u' :: rest2 =>
        match parseHex4 rest2 with
        | none => none
        | some (n, rest3) =>
          if 55296 ≤ n ∧ n < 56320 then
            match rest3 with
            | '\\' :: 'u' :: rest4 =>
              match parseHex4 rest4 with
              | some (m, rest5) =>
                if 56320 ≤ m ∧ m < 57344 then
                  match parseStringBody fuel rest5 with
                  | some (s, r) =>
                    some (String.singleton (Char.ofNat (65536 + (n - 55296) * 1024 + (m - 56320))) ++ s, r)
                  | none => none
                else none
              | none => none
            | _ => none
          else
            match parseStringBody fuel rest3 with
            | some (s, r) => some (String.singleton (Char.ofNat n) ++ s, r)
            | none => none
      | e :: rest2 =>
        let dec : Option Char :=
          if e = '"' then some '"'
          else if e = '\\' then some '\\'
          else if e = '/' then some '/'
          else if e = 'b' then some (Char.ofNat 8)
          else if e = 'f' then some (Char.ofNat 12)
          else if e = 'n' then some '\n'
          else if e = 'r' then some '\r'
          else if e = 't' then some '\t'
          else none
        match dec with
        | none => none
        | some ch =>
          match parseStringBody fuel rest2 with
          | some (s, r) => some (String.singleton ch ++ s, r)
          | none => none
      | [] => none
    else if c.toNat < 32 then none
    else
      match parseStringBody fuel rest with
      | some (s, r) => some (String.singleton c ++ s, r)
      | none => none

/-- Numeric value of a digit string. -/
def digitsToNat (ds : List Char) : Nat := ds.foldl (fun a c => a * 10 + (c.toNat - 48)) 0

/-- Build the rational denoted by sign, integer digits, fraction digits and
a signed exponent digit string. -/
def mkRatNum (neg : Bool) (ip fp : List Char) (esign : Int) (ed : List Char) : ℚ :=
  let mant : ℚ := ((digitsToNat ip * 10 ^ fp.length + digitsToNat fp : ℕ) : ℚ)
  let base : ℚ := mant / ((10 : ℚ) ^ fp.length)
  let e : Int := esign * (digitsToNat ed : Int)
  let scaled := if 0 ≤ e then base * ((10 : ℚ) ^ e.toNat) else base / ((10 : ℚ) ^ (-e).toNat)
  if neg then -scaled else scaled

/-- Parse a JSON number (strict grammar: no leading zeros, fraction and
exponent need at least one digit). -/
def parseNumber (cs : List Char) : Option (JVal × List Char) :=
  let p := match cs with | '-' :: r => (true, r) | _ => (false, cs)
  let neg := p.1
  let cs1 := p.2
  let ip := cs1.takeWhile Char.isDigit
  let cs2 := cs1.dropWhile Char.isDigit
  if ip.isEmpty then none
  else if 1 < ip.length ∧ ip.headD '1' = '0' then none
  else
    let q := match cs2 with
      | '.' :: r => (r.takeWhile Char.isDigit, r.dropWhile Char.isDigit, true)
      | _ => (([] : List Char), cs2, false)
    let fp := q.1
    let cs3 := q.2.1
    if q.2.2 ∧ fp.isEmpty then none
    else
      match cs3 with
      | 'e' :: r | 'E' :: r =>
        let s := match r with
          | '+' :: rr => ((1 : Int), rr)
          | '-' :: rr => ((-1 : Int), rr)
          | _ => ((1 : Int), r)
        let ed := s.2.takeWhile Char.isDigit
        if ed.isEmpty then none
        else some (.jnum (mkRatNum neg ip fp s.1 ed), s.2.dropWhile Char.isDigit)
      | _ => some (.jnum (mkRatNum neg ip fp 1 []), cs3)

mutual
/-- Parse a JSON value (fuel-based recursion; every mutual call consumes
one unit of fuel). -/
def parseVal : Nat → List Char → Option (JVal × List Char)
  | 0, _ => none
  | fuel + 1, cs =>
    match skipWs cs with
    | [] => none
    | c :: rest =>
      if c = 'n' then
        match rest with | 'u' :: 'l' :: 'l' :: r => some (.jnull, r) | _ => none
      else if c = 't' then
        match rest with | 'r' :: 'u' :: 'e' :: r => some (.jbool true, r) | _ => none
      else if c = 'f' then
        match rest with | 'a' :: 'l' :: 's' :: 'e' :: r => some (.jbool false, r) | _ => none
      else if c = '"' then
        match parseStringBody (rest.length + 1) rest with
        | some (s, r) => some (.jstr s, r)
        | none => none
      else if c = '[' then
        match skipWs rest with
        | d :: r => if d = ']' then some (.jarr [], r) else
            match parseElems fuel (d :: r) with
            | some (xs, r2) => some (.jarr xs, r2)
            | none => none
        | [] => none
      else if c = obrace then
        match skipWs rest with
        | d :: r => if d = cbrace then some (.jobj [], r) else
            match parseMembers fuel (d :: r) with
            | some (fs, r2) => some (.jobj fs, r2)
            | none => none
        | [] => none
      else if c = '-' ∨ c.isDigit then parseNumber (c :: rest)
      else none

/-- Parse the elements of a non-empty JSON array, up to and including the
closing bracket. -/
def parseElems : Nat → List Char → Option (List JVal × List Char)
  | 0, _ => none
  | fuel + 1, cs =>
    match parseVal fuel cs with
    | none => none
    | some (v, r) =>
      match skipWs r with
      | d :: r2 =>
        if d = ',' then
          match parseElems fuel r2 with
          | some (xs, r3) => some (v :: xs, r3)
          | none => none
        else if d = ']' then some ([v], r2)
        else none
      | [] => none

/-- Parse the members of a non-empty JSON object, up to and including the
closing brace. -/
def parseMembers : Nat → List Char → Option (List (String × JVal) × List Char)
  | 0, _ => none
  | fuel + 1, cs =>
    match skipWs cs with
    | '"' :: r =>
      match parseStringBody (r.length + 1) r with
      | none => none
      | some (k, r2) =>
        match skipWs r2 with
        | ':' :: r3 =>
          match parseVal fuel r3 with
          | none => none
          | some (v, r4) =>
            match skipWs r4 with
            | d :: r5 =>
              if d = ',' then
                match parseMembers fuel r5 with
                | some (fs, r6) => some ((k, v) :: fs, r6)
                | none => none
              else if d = cbrace then some ([(k, v)], r5)
              else none
            | [] => none
        | _ => none
    | _ => none
end

/-- Model of `json.loads` on the JSON fragment without NaN/Infinity
literals (which have no rational counterpart); `none` corresponds to
`json.JSONDecodeError`. -/
def json_loads (s : String) : Option JVal :=
  match parseVal (4 * s.length + 16) s.toList with
  | some (v, rest) => if skipWs rest = [] then some v else none
  | none => none

/-- Outcome of one HTTP exchange with the game server: either a response
(status code plus body, `none` when the body is not JSON-decodable) or a
transport-level exception with its message. -/
inductive UpstreamResult where
  | resp (status : Nat) (body : Option JVal)
  | netFail (msg : String)

/-- The upstream game server, as a deterministic oracle keyed by the full
request URL (and the JSON body for POST requests). -/
structure Upstream where
  onGet : String → UpstreamResult
  onPost : String → JVal → UpstreamResult

/-- One upstream call issued by a route handler. -/
inductive UpCall where
  | get (url : String)
  | post (url : String) (body : JVal)
deriving DecidableEq

/-- URL construction `GAME_SERVER_URL.rstrip(chr(47)) + endpoint`. -/
def mkUrl (base endpoint : String) : String :=
  String.mk (((base.toList.reverse).dropWhile (· = '/')).reverse) ++ endpoint

/-- Truthiness of the configured base URL (`if not GAME_SERVER_URL`). -/
def configOk : Option String → Bool
  | none => false
  | some s => s != ""

/-- The short-circuit error object for a missing base URL. -/
def notConfiguredObj : JVal := .jobj [("error", .jstr "Game server is not configured.")]

/-- The uniform error object produced on a `RequestException`. -/
def upstreamFailObj (details : String) : JVal :=
  .jobj [("error", .jstr "Upstream game server request failed"), ("details", .jstr details)]

/-- Model of `response.raise_for_status()` from the `requests` library: it
raises exactly for 4xx/5xx statuses, with an error message naming the
status and URL. -/
def raise_for_status (status : Nat) (url : String) : Option String :=
  if 400 ≤ status ∧ status < 500 then
    some (toString status ++ " Client Error for url: " ++ url)
  else if 500 ≤ status ∧ status < 600 then
    some (toString status ++ " Server Error for url: " ++ url)
  else none

/-- Turn one upstream exchange into the JSON value the helper returns:
exceptions (transport errors, `raise_for_status`, JSON decode failures)
become the uniform error object. -/
def handleUpstream (r : UpstreamResult) (url : String) : JVal :=
  match r with
  | .netFail m => upstreamFailObj m
  | .resp code body =>
    match raise_for_status code url with
    | some m => upstreamFailObj m
    | none =>
      match body with
      | some j => j
      | none => upstreamFailObj "Expecting value: line 1 column 1 (char 0)"

/-- Model of the helper `get_game_server_data` from src/app.py, returning
the JSON value it produces together with the upstream calls it issued. -/
def get_game_server_data (cfg : Option String) (up : Upstream) (endpoint : String) :
    JVal × List UpCall :=
  match cfg with
  | none => (notConfiguredObj, [])
  | some base =>
    if base = "" then (notConfiguredObj, [])
    else
      let url := mkUrl base endpoint
      (handleUpstream (up.onGet url) url, [.get url])

/-- Model of the helper `post_game_server_data` from src/app.py. -/
def post_game_server_data (cfg : Option String) (up : Upstream) (endpoint : String)
    (data : JVal) : JVal × List UpCall :=
  match cfg with
  | none => (notConfiguredObj, [])
  | some base =>
    if base = "" then (notConfiguredObj, [])
    else
      let url := mkUrl base endpoint
      (handleUpstream (up.onPost url data) url, [.post url data])

/-- The Flask session, with `jnull` standing for an absent key. -/
structure Sess where
  game_session_id : JVal := .jnull
  domain_name : JVal := .jnull
  top_predictions : JVal := .jnull
  last_guess : JVal := .jnull
  is_mod : JVal := .jnull
  mod_username : JVal := .jnull
deriving DecidableEq

/-- An HTTP response produced by a route handler. -/
inductive HResp where
  | page (template : String) (ctx : List (String × JVal))
  | redirectTo (url : String)
  | json (status : Nat) (body : JVal)
deriving DecidableEq

/-- Route path of a Flask endpoint name, as registered in src/app.py and
src/mod_routes.py. -/
def pathOf : String → String
  | "index" => "/"
  | "play_game" => "/play"
  | "is_it_this" => "/isitthis"
  | "this" => "/this"
  | "confirm_win_route" => "/confirm_win"
  | "thank_you" => "/thank_you"
  | "error" => "/error"
  | "moderator.login" => "/login"
  | "moderator.mod_panel" => "/mod"
  | e => "/" ++ e

/-- Query-string rendering of `url_for` keyword arguments (values are not
percent-encoded in this model). -/
def queryStr : List (String × String) → String
  | [] => ""
  | ps => "?" ++ String.intercalate "&" (ps.map (fun p => p.1 ++ "=" ++ p.2))

/-- Model of Flask `url_for`.  `add_questions` and `teach_me` take their
argument as a path segment; every other modelled endpoint takes keyword
arguments as query parameters. -/
def urlFor (endpoint : String) (params : List (String × String)) : String :=
  if endpoint = "add_questions" then
    "/add_questions/" ++ ((params.lookup "animal").getD "")
  else if endpoint = "teach_me" then
    "/teach_me/" ++ ((params.lookup "animal").getD "")
  else pathOf endpoint ++ queryStr params

instance {ε α : Type} [DecidableEq ε] [DecidableEq α] : DecidableEq (Except ε α) :=
  fun a b =>
    match a, b with
    | .ok x, .ok y => decidable_of_iff (x = y) (by simp)
    | .error x, .error y => decidable_of_iff (x = y) (by simp)
    | .ok _, .error _ => isFalse (by simp)
    | .error _, .ok _ => isFalse (by simp)

/-- Result of running one route handler: the response (`Except.error` is
an uncaught Python exception), the session afterwards, the upstream calls
issued in order, and the flashed messages `(text, category)`. -/
structure RouteResult where
  resp : Except String HResp
  sess : Sess
  calls : List UpCall
  flashes : List (String × String) := []
deriving DecidableEq

/-- The session-caching block shared verbatim by `/play`, `/api/answer`,
`/api/continue_game` and `/api/undo`: store `top_predictions`
JSON-encoded when present and truthy, and `last_guess` when present and
truthy, leaving each field unchanged otherwise. -/
def cacheFromState (sess : Sess) (fs : List (String × JVal)) : Sess :=
  let s1 :=
    if truthy (getD fs "top_predictions") then
      { sess with top_predictions := .jstr (dumps (getD fs "top_predictions")) }
    else sess
  if truthy (getD fs "guess") then { s1 with last_guess := getD fs "guess" } else s1

/-- Model of the route `/play` (`play_game` in src/app.py). -/
def play_game (cfg : Option String) (up : Upstream) (sess : Sess) : RouteResult :=
  if !truthy sess.game_session_id then
    ⟨.ok (.redirectTo (urlFor "index" [])), sess, [], []⟩
  else
    let r := get_game_server_data cfg up ("/question/" ++ pyStr sess.game_session_id)
    match asObj r.1 with
    | .error e => ⟨.error e, sess, r.2, []⟩
    | .ok fs =>
      if truthy (getD fs "error") then
        ⟨.ok (.page "error.html"
          [("message", .jstr ("Your session has expired or an error occurred. ("
            ++ pyStr (getD fs "details") ++ ")"))]), sess, r.2, []⟩
      else
        ⟨.ok (.page "play.html" [("data", r.1)]), cacheFromState sess fs, r.2, []⟩

/-- The JSON body `/api/answer` forwards upstream, built from the request
body fields `feature`, `answer` and `animal_name`. -/
def answerPayload (rf : List (String × JVal)) : JVal :=
  .jobj [("feature", getD rf "feature"), ("answer", getD rf "answer"),
    ("animal_name", getD rf "animal_name")]

/-- Model of the route `/api/answer` (`api_answer` in src/app.py).
`req` is the parsed JSON request body. -/
def api_answer (cfg : Option String) (up : Upstream) (sess : Sess) (req : JVal) :
    RouteResult :=
  if !truthy sess.game_session_id then
    ⟨.ok (.json 400 (.jobj [("error", .jstr "No game session")])), sess, [], []⟩
  else
    match asObj req with
    | .error e => ⟨.error e, sess, [], []⟩
    | .ok rf =>
      let payload : JVal := answerPayload rf
      let gid := pyStr sess.game_session_id
      let r1 := post_game_server_data cfg up ("/answer/" ++ gid) payload
      match asObj r1.1 with
      | .error e => ⟨.error e, sess, r1.2, []⟩
      | .ok afs =>
        if getD afs "status" = .jstr "guess_correct" then
          ⟨.ok (.json 200 (.jobj [("redirect_url", .jstr (urlFor "confirm_win_route"
            [("animal", pyStr (getD afs "animal"))]))])), sess, r1.2, []⟩
        else if truthy (getD afs "error") then
          ⟨.ok (.json 500 (.jobj [("error",
            pyGetDefault afs "details" (.jstr "Failed to post answer"))])), sess, r1.2, []⟩
        else
          let r2 := get_game_server_data cfg up ("/question/" ++ gid)
          match asObj r2.1 with
          | .error e => ⟨.error e, sess, r1.2 ++ r2.2, []⟩
          | .ok nfs =>
            if truthy (getD nfs "error") then
              ⟨.ok (.json 200 (.jobj [("redirect_url", .jstr (urlFor "error"
                [("message", "Your session has expired or an error occurred. ("
                  ++ pyStr (getD nfs "details") ++ ")")]))])), sess, r1.2 ++ r2.2, []⟩
            else
              ⟨.ok (.json 200 r2.1), cacheFromState sess nfs, r1.2 ++ r2.2, []⟩

/-- Model of the route `/api/reject_guess` (`api_reject_guess` in
src/app.py).  It never touches the session cache. -/
def api_reject_guess (cfg : Option String) (up : Upstream) (sess : Sess) (req : JVal) :
    RouteResult :=
  if !truthy sess.game_session_id then
    ⟨.ok (.json 400 (.jobj [("error", .jstr "No game session")])), sess, [], []⟩
  else
    match asObj req with
    | .error e => ⟨.error e, sess, [], []⟩
    | .ok rf =>
      let animal_name := getD rf "guess"
      if !truthy animal_name then
        ⟨.ok (.json 400 (.jobj [("error", .jstr "No animal name provided")])), sess, [], []⟩
      else
        let r := post_game_server_data cfg up ("/reject/" ++ pyStr sess.game_session_id)
          (.jobj [("animal_name", animal_name)])
        match asObj r.1 with
        | .error e => ⟨.error e, sess, r.2, []⟩
        | .ok rfs =>
          if truthy (getD rfs "error") then
            ⟨.ok (.json 500 (.jobj [("error",
              pyGetDefault rfs "details" (.jstr "Failed to reject guess"))])), sess, r.2, []⟩
          else
            ⟨.ok (.json 200 r.1), sess, r.2, []⟩

/-- Model of the route `/api/continue_game` (`api_continue_game` in
src/app.py): a POST to `/continue/{id}` followed, when the upstream
reports `continuing`, by a GET of `/question/{id}`. -/
def api_continue_game (cfg : Option String) (up : Upstream) (sess : Sess) : RouteResult :=
  if !truthy sess.game_session_id then
    ⟨.ok (.json 400 (.jobj [("error", .jstr "No game session")])), sess, [], []⟩
  else
    let gid := pyStr sess.game_session_id
    let r1 := post_game_server_data cfg up ("/continue/" ++ gid) (.jobj [])
    match asObj r1.1 with
    | .error e => ⟨.error e, sess, r1.2, []⟩
    | .ok cfs =>
      if getD cfs "status" ≠ .jstr "continuing" then
        ⟨.ok (.json 500 (.jobj [("error",
          pyGetDefault cfs "details" (.jstr "Failed to set continue mode"))])), sess, r1.2, []⟩
      else
        let r2 := get_game_server_data cfg up ("/question/" ++ gid)
        match asObj r2.1 with
        | .error e => ⟨.error e, sess, r1.2 ++ r2.2, []⟩
        | .ok nfs =>
          if truthy (getD nfs "error") then
            ⟨.ok (.json 200 (.jobj [("redirect_url", .jstr (urlFor "error"
              [("message", "Your session has expired or an error occurred. ("
                ++ pyStr (getD nfs "details") ++ ")")]))])), sess, r1.2 ++ r2.2, []⟩
          else
            ⟨.ok (.json 200 r2.1), cacheFromState sess nfs, r1.2 ++ r2.2, []⟩

/-- Model of the route `/api/undo` (`api_undo` in src/app.py): one POST to
`/undo/{id}` whose response is both relayed and cached like `/play`. -/
def api_undo (cfg : Option String) (up : Upstream) (sess : Sess) : RouteResult :=
  if !truthy sess.game_session_id then
    ⟨.ok (.json 400 (.jobj [("error", .jstr "No game session")])), sess, [], []⟩
  else
    let r := post_game_server_data cfg up ("/undo/" ++ pyStr sess.game_session_id) (.jobj [])
    match asObj r.1 with
    | .error e => ⟨.error e, sess, r.2, []⟩
    | .ok ufs =>
      if truthy (getD ufs "error") then
        ⟨.ok (.json 500 (.jobj [("error",
          pyGetDefault ufs "details" (.jstr "Failed to undo"))])), sess, r.2, []⟩
      else
        ⟨.ok (.json 200 r.1), cacheFromState sess ufs, r.2, []⟩

/-- Python iteration over the value produced by `json.loads`: lists yield
their elements, dicts their keys, strings their characters; anything else
raises `TypeError`. -/
def pyIter : JVal → Except String (List JVal)
  | .jarr xs => .ok xs
  | .jobj fs => .ok (fs.map (fun p => .jstr p.1))
  | .jstr s => .ok (s.toList.map (fun c => .jstr (String.singleton c)))
  | _ => .error "TypeError: object is not iterable"

/-- One step of the `/isitthis` list comprehension filter:
`p.get(chr(39)animal...) and p.get(...).lower() != (last_guess or ...).lower()`,
with the `AttributeError`s Python would raise on non-dict entries or
non-string names. -/
def entryStep (lg : JVal) (p : JVal) : Except String Bool :=
  match asObj p with
  | .error e => .error e
  | .ok fs =>
    let a := getD fs "animal"
    if truthy a then
      match a with
      | .jstr s =>
        match (if truthy lg then lg else .jstr "") with
        | .jstr t => .ok (lowerStr s != lowerStr t)
        | _ => .error "AttributeError: lower"
      | _ => .error "AttributeError: lower"
    else .ok false

/-- Left-to-right monadic filtering, aborting at the first exception, as a
Python list comprehension does. -/
def filterExcept (f : JVal → Except String Bool) : List JVal → Except String (List JVal)
  | [] => .ok []
  | p :: ps =>
    match f p with
    | .error e => .error e
    | .ok b =>
      match filterExcept f ps with
      | .error e => .error e
      | .ok rest => .ok (if b then p :: rest else rest)

/-- Model of the route `/isitthis` (`is_it_this` in src/app.py).  Only
`json.JSONDecodeError` is caught (yielding an empty list); `TypeError` or
`AttributeError` from a cached non-list escape as exceptions. -/
def is_it_this (sess : Sess) : RouteResult :=
  let tpj := if sess.top_predictions = .jnull then JVal.jstr "[]" else sess.top_predictions
  match tpj with
  | .jstr s =>
    match json_loads s with
    | none => ⟨.ok (.page "isitthis.html" [("predictions", .jarr [])]), sess, [], []⟩
    | some v =>
      match pyIter v with
      | .error e => ⟨.error e, sess, [], []⟩
      | .ok xs =>
        match filterExcept (entryStep sess.last_guess) xs with
        | .error e => ⟨.error e, sess, [], []⟩
        | .ok l => ⟨.ok (.page "isitthis.html" [("predictions", .jarr l)]), sess, [], []⟩
  | _ => ⟨.error "TypeError: the JSON object must be str", sess, [], []⟩

/-- Model of the route `/confirm_win` (`confirm_win_route` in src/app.py):
posts the win when a game id is present (its response is ignored), pops
only `game_session_id`, then renders the win page. -/
def confirm_win_route (cfg : Option String) (up : Upstream) (sess : Sess)
    (args : List (String × String)) : RouteResult :=
  let animal := (args.lookup "animal").getD "your animal"
  let domain := if sess.domain_name = .jnull then JVal.jstr "animals" else sess.domain_name
  if truthy sess.game_session_id then
    let r := post_game_server_data cfg up ("/win/" ++ pyStr sess.game_session_id)
      (.jobj [("animal_name", .jstr animal)])
    ⟨.ok (.page "win.html" [("animal", .jstr animal), ("domain", domain)]),
      { sess with game_session_id := .jnull }, r.2, []⟩
  else
    ⟨.ok (.page "win.html" [("animal", .jstr animal), ("domain", domain)]), sess, [], []⟩

/-- The FUZZY_MAP constant from src/app.py. -/
def FUZZY_MAP : List (String × ℚ) :=
  [("yes", 1), ("probably", 0.75), ("sometimes", 0.5), ("rarely", 0.25), ("no", 0)]

/-- Lookup of the first form value for a key (`request.form.get`). -/
def formGet (form : List (String × String)) (k : String) : Option String := form.lookup k

/-- Truthiness of an optional form value (absent and empty are falsy). -/
def formTruthy : Option String → Bool
  | some s => s != ""
  | none => false

/-- A single-quote character for building flash messages. -/
def squote : String := String.singleton (Char.ofNat 39)

/-- Optional string as a JSON value (`None` becomes `null`). -/
def optStrJ : Option String → JVal
  | some s => .jstr s
  | none => .jnull

/-- Whether a form key is one of the per-animal answer keys of
`/submit_question` (`key.startswith` on the prefix `answer_for_`). -/
def answerForKey (k : String) : Bool := "answer_for_".toList.isPrefixOf k.toList

/-- The animal named by an `answer_for_...` key. -/
def answerForItem (k : String) : String := k.drop 11

/-- The `/suggest_feature` payload contributed by one form entry of
`/submit_question`: `None` for non-answer keys, answers of `idk`, and
answers outside FUZZY_MAP. -/
def payloadOfEntry (domain feature question : String) (kv : String × String) : Option JVal :=
  if answerForKey kv.1 then
    if kv.2 = "idk" then none
    else
      match FUZZY_MAP.lookup kv.2 with
      | none => none
      | some fv => some (.jobj [("domain_name", .jstr domain),
          ("feature_name", .jstr feature), ("question_text", .jstr question),
          ("item_name", .jstr (answerForItem kv.1)), ("fuzzy_value", .jnum fv)])
  else none

/-- Whether the main animal received a valid (non-idk, in-vocabulary)
answer in the `/submit_question` form. -/
def mainAnswerProvided (form : List (String × String)) (item : String) : Bool :=
  form.any (fun kv => answerForKey kv.1 && kv.2 != "idk"
    && (FUZZY_MAP.lookup kv.2).isSome && lowerStr (answerForItem kv.1) == lowerStr item)

/-- Accumulated outcome of the sequential `/suggest_feature` submission
loop: error messages, success count, upstream calls, and a pending
exception when a response was not a dict. -/
structure SubmitAcc where
  errors : List String
  successes : Nat
  calls : List UpCall
  exn : Option String
deriving DecidableEq

/-- The submission loop shared by `/submit_question` and
`/submit_teaching`: post each payload to `/suggest_feature`, counting
successes (`status == ok`) and collecting error messages that name the
payload field `nameKey`. -/
def submitAll (cfg : Option String) (up : Upstream) (nameKey : String) :
    List JVal → SubmitAcc
  | [] => ⟨[], 0, [], none⟩
  | p :: ps =>
    let r := post_game_server_data cfg up "/suggest_feature" p
    match asObj r.1 with
    | .error e => ⟨[], 0, r.2, some e⟩
    | .ok fs =>
      let rest := submitAll cfg up nameKey ps
      match rest.exn with
      | some e => ⟨[], 0, r.2 ++ rest.calls, some e⟩
      | none =>
        if getD fs "status" = .jstr "ok" then
          ⟨rest.errors, rest.successes + 1, r.2 ++ rest.calls, none⟩
        else
          ⟨("Could not submit for " ++ pyStr (getJ p nameKey) ++ ": "
            ++ pyStr (pyGetDefault fs "message" (.jstr "Unknown error"))) :: rest.errors,
            rest.successes, r.2 ++ rest.calls, none⟩

/-- Model of the route `/submit_question` (`submit_question` in
src/app.py). -/
def submit_question (cfg : Option String) (up : Upstream) (sess : Sess)
    (form : List (String × String)) : RouteResult :=
  let domain_name := formGet form "domain_name"
  let item_name := formGet form "animal"
  let feature_name := formGet form "feature_name"
  let question_text := formGet form "question_text"
  if !(formTruthy domain_name && formTruthy item_name && formTruthy feature_name
      && formTruthy question_text) then
    ⟨.ok (.redirectTo (urlFor "add_questions" [("animal", pyStr (optStrJ item_name))])),
      sess, [],
      [("All fields (feature, question, and main answer) are required.", "error")]⟩
  else
    let d := domain_name.getD ""
    let it := item_name.getD ""
    let fe := feature_name.getD ""
    let qt := question_text.getD ""
    let payloads := form.filterMap (payloadOfEntry d fe qt)
    let invalidFlashes := form.filterMap (fun kv =>
      if answerForKey kv.1 && kv.2 != "idk" && (FUZZY_MAP.lookup kv.2).isNone then
        some ("Invalid answer " ++ squote ++ kv.2 ++ squote ++ " for "
          ++ answerForItem kv.1 ++ ".", "error")
      else none)
    if !mainAnswerProvided form it then
      ⟨.ok (.redirectTo (urlFor "add_questions" [("animal", it)])), sess, [],
        invalidFlashes ++ [("You must provide a valid answer for " ++ it ++ ".", "error")]⟩
    else
      let acc := submitAll cfg up "item_name" payloads
      match acc.exn with
      | some e =>
        ⟨.ok (.page "error.html" [("message", .jstr ("An internal error occurred: " ++ e))]),
          sess, acc.calls, invalidFlashes⟩
      | none =>
        let fl :=
          if !acc.errors.isEmpty then
            ("Successfully submitted " ++ toString acc.successes ++ " features. Errors: "
              ++ String.intercalate "; " acc.errors, "warning")
          else
            ("Successfully submitted " ++ toString acc.successes ++ " new feature facts!",
              "success")
        ⟨.ok (.redirectTo (urlFor "thank_you" [("animal", it), ("domain", d)])), sess,
          acc.calls, invalidFlashes ++ [fl]⟩

/-- The `/suggest_feature` payload contributed by loop index `i` of
`/submit_teaching`: skipped when the indexed feature key is absent, the
answer is `idk`, or the answer is outside FUZZY_MAP. -/
def teachingPayloadAt (form : List (String × String)) (domain animal : String) (i : Nat) :
    Option JVal :=
  if (formGet form ("feature_name_" ++ toString i)).isSome then
    let answer := formGet form ("answer_" ++ toString i)
    let feature := formGet form ("feature_name_" ++ toString i)
    let question := formGet form ("question_" ++ toString i)
    if answer = some "idk" then none
    else
      match answer.bind (fun a => FUZZY_MAP.lookup a) with
      | some fv => some (.jobj [("domain_name", .jstr domain),
          ("feature_name", optStrJ feature), ("question_text", optStrJ question),
          ("item_name", .jstr animal), ("fuzzy_value", .jnum fv)])
      | none => none
  else none

/-- Model of the route `/submit_teaching` (`submit_teaching` in
src/app.py). -/
def submit_teaching (cfg : Option String) (up : Upstream) (sess : Sess)
    (form : List (String × String)) : RouteResult :=
  let domain_name := formGet form "domain_name"
  let animal_name := formGet form "animal_name"
  if !(formTruthy domain_name && formTruthy animal_name) then
    ⟨.ok (.redirectTo (urlFor "index" [])), sess, [],
      [("Your session or data was invalid. Please try again.", "error")]⟩
  else
    let d := domain_name.getD ""
    let a := animal_name.getD ""
    let payloads := (List.range 5).filterMap (teachingPayloadAt form d a)
    let acc := submitAll cfg up "feature_name" payloads
    match acc.exn with
    | some e =>
      ⟨.ok (.page "error.html" [("message", .jstr ("An internal error occurred: " ++ e))]),
        sess, acc.calls, []⟩
    | none =>
      let fl :=
        if !acc.errors.isEmpty then
          ("Successfully submitted " ++ toString acc.successes ++ " answers. Errors: "
            ++ String.intercalate "; " acc.errors, "warning")
        else
          ("Thank you! Successfully submitted " ++ toString acc.successes ++ " new facts!",
            "success")
      ⟨.ok (.redirectTo (urlFor "thank_you" [("animal", a), ("domain", d)])), sess,
        acc.calls, [fl]⟩

/-- A database mutation issued through the Supabase client in
src/mod_routes.py. -/
inductive DbCall where
  | update (table setKey setVal filterKey filterVal : String)
  | delete (table filterKey filterVal : String)
deriving DecidableEq

/-- The hosted database as an oracle: `none` means the call succeeded,
`some msg` that `execute()` raised. -/
def DbEnv : Type := DbCall → Option String

/-- Result of a moderator route: response, session, database mutations
issued in order, and flashes. -/
structure ModResult where
  resp : HResp
  sess : Sess
  dbCalls : List DbCall
  flashes : List (String × String)
deriving DecidableEq

/-- Model of `/mod/approve/<feature_id>` (`mod_approve_feature` in
src/mod_routes.py). -/
def mod_approve_feature (db : DbEnv) (configured : Bool) (sess : Sess)
    (feature_id : String) : ModResult :=
  if !truthy sess.is_mod then
    ⟨.redirectTo (urlFor "moderator.login" []), sess, [],
      [("You must be logged in to perform this action.", "error")]⟩
  else if !configured then
    ⟨.redirectTo (urlFor "moderator.mod_panel" []), sess, [],
      [("Supabase client is not configured.", "error")]⟩
  else
    let c := DbCall.update "features" "status" "active" "id" feature_id
    match db c with
    | none => ⟨.redirectTo (urlFor "moderator.mod_panel" []), sess, [c],
        [("Feature approved successfully.", "success")]⟩
    | some e => ⟨.redirectTo (urlFor "moderator.mod_panel" []), sess, [c],
        [("Error approving feature: " ++ e, "error")]⟩

/-- Model of `/mod/reject/<feature_id>` (`mod_reject_feature` in
src/mod_routes.py). -/
def mod_reject_feature (db : DbEnv) (configured : Bool) (sess : Sess)
    (feature_id : String) : ModResult :=
  if !truthy sess.is_mod then
    ⟨.redirectTo (urlFor "moderator.login" []), sess, [],
      [("You must be logged in to perform this action.", "error")]⟩
  else if !configured then
    ⟨.redirectTo (urlFor "moderator.mod_panel" []), sess, [],
      [("Supabase client is not configured.", "error")]⟩
  else
    let c := DbCall.delete "features" "id" feature_id
    match db c with
    | none => ⟨.redirectTo (urlFor "moderator.mod_panel" []), sess, [c],
        [("Feature rejected and deleted.", "success")]⟩
    | some e => ⟨.redirectTo (urlFor "moderator.mod_panel" []), sess, [c],
        [("Error rejecting feature: " ++ e, "error")]⟩

/-- Model of `/mod/approve/item/<item_id>` (`mod_approve_item` in
src/mod_routes.py). -/
def mod_approve_item (db : DbEnv) (configured : Bool) (sess : Sess)
    (item_id : String) : ModResult :=
  if !truthy sess.is_mod then
    ⟨.redirectTo (urlFor "moderator.login" []), sess, [],
      [("You must be logged in to perform this action.", "error")]⟩
  else if !configured then
    ⟨.redirectTo (urlFor "moderator.mod_panel" []), sess, [],
      [("Supabase client is not configured.", "error")]⟩
  else
    let c := DbCall.update "items" "status" "active" "id" item_id
    match db c with
    | none => ⟨.redirectTo (urlFor "moderator.mod_panel" []), sess, [c],
        [("Item approved successfully.", "success")]⟩
    | some e => ⟨.redirectTo (urlFor "moderator.mod_panel" []), sess, [c],
        [("Error approving item: " ++ e, "error")]⟩

/-- Model of `/mod/reject/item/<item_id>` (`mod_reject_item` in
src/mod_routes.py): two sequential deletes with no transaction, the
second skipped when the first raises. -/
def mod_reject_item (db : DbEnv) (configured : Bool) (sess : Sess)
    (item_id : String) : ModResult :=
  if !truthy sess.is_mod then
    ⟨.redirectTo (urlFor "moderator.login" []), sess, [],
      [("You must be logged in to perform this action.", "error")]⟩
  else if !configured then
    ⟨.redirectTo (urlFor "moderator.mod_panel" []), sess, [],
      [("Supabase client is not configured.", "error")]⟩
  else
    let c1 := DbCall.delete "item_features" "item_id" item_id
    match db c1 with
    | some e => ⟨.redirectTo (urlFor "moderator.mod_panel" []), sess, [c1],
        [("Error rejecting item: " ++ e, "error")]⟩
    | none =>
      let c2 := DbCall.delete "items" "id" item_id
      match db c2 with
      | some e => ⟨.redirectTo (urlFor "moderator.mod_panel" []), sess, [c1, c2],
          [("Error rejecting item: " ++ e, "error")]⟩
      | none => ⟨.redirectTo (urlFor "moderator.mod_panel" []), sess, [c1, c2],
          [("Item rejected and deleted (along with its feature links).", "success")]⟩

/-- C1, counterexample: an upstream status of 300 is not 2xx, yet the
helper returns the JSON body as-is (no `error` key), because
`raise_for_status` raises only for 4xx/5xx; so the claim that every
non-2xx status yields the uniform error object is false. -/
theorem c1_counterexample :
    (get_game_server_data (some "http://gs")
      ⟨fun _ => .resp 300 (some (.jobj [("ok", .jbool true)])), fun _ _ => .netFail "x"⟩
      "/question/a").1 = .jobj [("ok", .jbool true)] ∧
    hasKey (get_game_server_data (some "http://gs")
      ⟨fun _ => .resp 300 (some (.jobj [("ok", .jbool true)])), fun _ _ => .netFail "x"⟩
      "/question/a").1 "error" = false := by
  constructor <;> rfl

/-- C1 (amended): on any transport-level failure, any 4xx/5xx upstream
status (exactly the statuses `raise_for_status` raises for — a non-2xx
status outside 4xx/5xx is returned as-is), or a non-decodable body, the
helpers return the uniform `{error, details}` object without raising, and
with an absent or empty base URL they return the not-configured error
with no upstream call. -/
theorem c1_amended :
    (∀ up ep body,
      get_game_server_data none up ep = (notConfiguredObj, []) ∧
      post_game_server_data none up ep body = (notConfiguredObj, []) ∧
      get_game_server_data (some "") up ep = (notConfiguredObj, []) ∧
      post_game_server_data (some "") up ep body = (notConfiguredObj, [])) ∧
    (∀ code url, (raise_for_status code url).isSome ↔ (400 ≤ code ∧ code < 600)) ∧
    (∀ base up ep m, base ≠ "" → up.onGet (mkUrl base ep) = .netFail m →
      get_game_server_data (some base) up ep =
        (upstreamFailObj m, [.get (mkUrl base ep)])) ∧
    (∀ base up ep body m, base ≠ "" → up.onPost (mkUrl base ep) body = .netFail m →
      post_game_server_data (some base) up ep body =
        (upstreamFailObj m, [.post (mkUrl base ep) body])) ∧
    (∀ base up ep code b m, base ≠ "" → up.onGet (mkUrl base ep) = .resp code b →
      raise_for_status code (mkUrl base ep) = some m →
      get_game_server_data (some base) up ep =
        (upstreamFailObj m, [.get (mkUrl base ep)])) ∧
    (∀ base up ep body code b m, base ≠ "" → up.onPost (mkUrl base ep) body = .resp code b →
      raise_for_status code (mkUrl base ep) = some m →
      post_game_server_data (some base) up ep body =
        (upstreamFailObj m, [.post (mkUrl base ep) body])) ∧
    (∀ base up ep code, base ≠ "" → up.onGet (mkUrl base ep) = .resp code none →
      raise_for_status code (mkUrl base ep) = none →
      get_game_server_data (some base) up ep =
        (upstreamFailObj "Expecting value: line 1 column 1 (char 0)",
          [.get (mkUrl base ep)])) ∧
    (∀ base up ep code j, base ≠ "" → up.onGet (mkUrl base ep) = .resp code (some j) →
      raise_for_status code (mkUrl base ep) = none →
      get_game_server_data (some base) up ep = (j, [.get (mkUrl base ep)])) := by
  refine ⟨?_, ?_, ?_, ?_, ?_, ?_, ?_, ?_⟩
  · intro up ep body
    refine ⟨rfl, rfl, rfl, rfl⟩
  · intro code url
    unfold raise_for_status
    split_ifs with h1 h2 <;> simp <;> omega
  · intro base up ep m hb h
    simp [get_game_server_data, handleUpstream, hb, h]
  · intro base up ep body m hb h
    simp [post_game_server_data, handleUpstream, hb, h]
  · intro base up ep code b m hb h hs
    simp [get_game_server_data, handleUpstream, hb, h, hs]
  · intro base up ep body code b m hb h hs
    simp [post_game_server_data, handleUpstream, hb, h, hs]
  · intro base up ep code hb h hs
    simp [get_game_server_data, handleUpstream, hb, h, hs]
  · intro base up ep code j hb h hs
    simp [get_game_server_data, handleUpstream, hb, h, hs]

/-- C1 witness: the amended theorem applied at a concrete transport
failure and at a concrete missing configuration. -/
theorem c1_amended_witness :
    get_game_server_data (some "http://g")
      ⟨fun _ => .netFail "boom", fun _ _ => .netFail "boom"⟩ "/domains" =
      (upstreamFailObj "boom", [.get "http://g/domains"]) ∧
    get_game_server_data none
      ⟨fun _ => .netFail "boom", fun _ _ => .netFail "boom"⟩ "/domains" =
      (notConfiguredObj, []) := by
  constructor
  · have h := c1_amended.2.2.1 "http://g"
      ⟨fun _ => .netFail "boom", fun _ _ => .netFail "boom"⟩ "/domains" "boom"
      (by decide) rfl
    simpa using h
  · exact (c1_amended.1 ⟨fun _ => .netFail "boom", fun _ _ => .netFail "boom"⟩
      "/domains" .jnull).1

/-- C4: with no (or a falsy) `game_session_id` in the session, `/play`
redirects to `/` and each JSON API game route returns a 400 error
payload, in every case without an upstream call and without touching the
session. -/
theorem c4_missing_session (cfg : Option String) (up : Upstream) (sess : Sess) (req : JVal)
    (h : truthy sess.game_session_id = false) :
    play_game cfg up sess = ⟨.ok (.redirectTo (urlFor "index" [])), sess, [], []⟩ ∧
    api_answer cfg up sess req =
      ⟨.ok (.json 400 (.jobj [("error", .jstr "No game session")])), sess, [], []⟩ ∧
    api_reject_guess cfg up sess req =
      ⟨.ok (.json 400 (.jobj [("error", .jstr "No game session")])), sess, [], []⟩ ∧
    api_continue_game cfg up sess =
      ⟨.ok (.json 400 (.jobj [("error", .jstr "No game session")])), sess, [], []⟩ ∧
    api_undo cfg up sess =
      ⟨.ok (.json 400 (.jobj [("error", .jstr "No game session")])), sess, [], []⟩ := by
  refine ⟨?_, ?_, ?_, ?_, ?_⟩ <;>
    simp [play_game, api_answer, api_reject_guess, api_continue_game, api_undo, h]

/-- C4 witness: the theorem applied to the fresh (empty) session. -/
theorem c4_missing_session_witness :
    truthy (({} : Sess).game_session_id) = false ∧
    (play_game (some "http://g") ⟨fun _ => .netFail "x", fun _ _ => .netFail "x"⟩ {} =
      ⟨.ok (.redirectTo (urlFor "index" [])), {}, [], []⟩ ∧
    api_answer (some "http://g") ⟨fun _ => .netFail "x", fun _ _ => .netFail "x"⟩ {} .jnull =
      ⟨.ok (.json 400 (.jobj [("error", .jstr "No game session")])), {}, [], []⟩ ∧
    api_reject_guess (some "http://g") ⟨fun _ => .netFail "x", fun _ _ => .netFail "x"⟩
        {} .jnull =
      ⟨.ok (.json 400 (.jobj [("error", .jstr "No game session")])), {}, [], []⟩ ∧
    api_continue_game (some "http://g") ⟨fun _ => .netFail "x", fun _ _ => .netFail "x"⟩ {} =
      ⟨.ok (.json 400 (.jobj [("error", .jstr "No game session")])), {}, [], []⟩ ∧
    api_undo (some "http://g") ⟨fun _ => .netFail "x", fun _ _ => .netFail "x"⟩ {} =
      ⟨.ok (.json 400 (.jobj [("error", .jstr "No game session")])), {}, [], []⟩) :=
  ⟨rfl, c4_missing_session (some "http://g")
    ⟨fun _ => .netFail "x", fun _ _ => .netFail "x"⟩ {} .jnull rfl⟩

/-- C5: without a truthy `is_mod` in the session, every moderator
mutation route redirects to the login page having issued no database
call at all (so no update or delete is reachable). -/
theorem c5_mod_guard (db : DbEnv) (configured : Bool) (sess : Sess) (someId : String)
    (h : truthy sess.is_mod = false) :
    mod_approve_feature db configured sess someId =
      ⟨.redirectTo (urlFor "moderator.login" []), sess, [],
        [("You must be logged in to perform this action.", "error")]⟩ ∧
    mod_reject_feature db configured sess someId =
      ⟨.redirectTo (urlFor "moderator.login" []), sess, [],
        [("You must be logged in to perform this action.", "error")]⟩ ∧
    mod_approve_item db configured sess someId =
      ⟨.redirectTo (urlFor "moderator.login" []), sess, [],
        [("You must be logged in to perform this action.", "error")]⟩ ∧
    mod_reject_item db configured sess someId =
      ⟨.redirectTo (urlFor "moderator.login" []), sess, [],
        [("You must be logged in to perform this action.", "error")]⟩ := by
  refine ⟨?_, ?_, ?_, ?_⟩ <;>
    simp [mod_approve_feature, mod_reject_feature, mod_approve_item, mod_reject_item, h]

/-- C5 witness: the theorem applied to a session without moderator
rights, against a database environment that would accept any mutation. -/
theorem c5_mod_guard_witness :
    truthy (({} : Sess).is_mod) = false ∧
    (mod_approve_feature (fun _ => none) true {} "7" =
      ⟨.redirectTo (urlFor "moderator.login" []), {}, [],
        [("You must be logged in to perform this action.", "error")]⟩ ∧
    mod_reject_feature (fun _ => none) true {} "7" =
      ⟨.redirectTo (urlFor "moderator.login" []), {}, [],
        [("You must be logged in to perform this action.", "error")]⟩ ∧
    mod_approve_item (fun _ => none) true {} "7" =
      ⟨.redirectTo (urlFor "moderator.login" []), {}, [],
        [("You must be logged in to perform this action.", "error")]⟩ ∧
    mod_reject_item (fun _ => none) true {} "7" =
      ⟨.redirectTo (urlFor "moderator.login" []), {}, [],
        [("You must be logged in to perform this action.", "error")]⟩) :=
  ⟨rfl, c5_mod_guard (fun _ => none) true {} "7" rfl⟩

/-- C9: with a truthy `game_session_id` and a configured upstream,
`/confirm_win` issues exactly the POST of the confirmed animal to
`/win/{id}` and renders the win page, after which `game_session_id` is
removed while every other session field is unchanged. -/
theorem c9_confirm_win (base : String) (up : Upstream) (sess : Sess)
    (args : List (String × String)) (hb : base ≠ "")
    (h : truthy sess.game_session_id = true) :
    (confirm_win_route (some base) up sess args).calls =
      [.post (mkUrl base ("/win/" ++ pyStr sess.game_session_id))
        (.jobj [("animal_name", .jstr ((args.lookup "animal").getD "your animal"))])] ∧
    (confirm_win_route (some base) up sess args).sess.game_session_id = .jnull ∧
    (confirm_win_route (some base) up sess args).sess.domain_name = sess.domain_name ∧
    (confirm_win_route (some base) up sess args).sess.top_predictions =
      sess.top_predictions ∧
    (confirm_win_route (some base) up sess args).sess.last_guess = sess.last_guess ∧
    (confirm_win_route (some base) up sess args).sess.is_mod = sess.is_mod ∧
    (confirm_win_route (some base) up sess args).sess.mod_username = sess.mod_username ∧
    (confirm_win_route (some base) up sess args).resp =
      .ok (.page "win.html"
        [("animal", .jstr ((args.lookup "animal").getD "your animal")),
         ("domain",
          if sess.domain_name = .jnull then JVal.jstr "animals" else sess.domain_name)]) := by
  refine ⟨?_, ?_, ?_, ?_, ?_, ?_, ?_, ?_⟩ <;>
    simp [confirm_win_route, post_game_server_data, h, hb]

/-- C9 witness: the theorem applied to a concrete session holding a game
id, cached predictions and a moderator flag. -/
theorem c9_confirm_win_witness :
    (confirm_win_route (some "http://g")
      ⟨fun _ => .netFail "x", fun _ _ => .resp 200 (some (.jobj [("status", .jstr "ok")]))⟩
      { game_session_id := .jstr "s1", domain_name := .jstr "animals",
        top_predictions := .jstr "[]", last_guess := .jstr "Dog",
        is_mod := .jbool true, mod_username := .jstr "m" }
      [("animal", "Cat")]).calls =
      [.post "http://g/win/s1" (.jobj [("animal_name", .jstr "Cat")])] ∧
    (confirm_win_route (some "http://g")
      ⟨fun _ => .netFail "x", fun _ _ => .resp 200 (some (.jobj [("status", .jstr "ok")]))⟩
      { game_session_id := .jstr "s1", domain_name := .jstr "animals",
        top_predictions := .jstr "[]", last_guess := .jstr "Dog",
        is_mod := .jbool true, mod_username := .jstr "m" }
      [("animal", "Cat")]).sess =
      { game_session_id := .jnull, domain_name := .jstr "animals",
        top_predictions := .jstr "[]", last_guess := .jstr "Dog",
        is_mod := .jbool true, mod_username := .jstr "m" } := by
  have h := c9_confirm_win "http://g"
    ⟨fun _ => .netFail "x", fun _ _ => .resp 200 (some (.jobj [("status", .jstr "ok")]))⟩
    { game_session_id := .jstr "s1", domain_name := .jstr "animals",
      top_predictions := .jstr "[]", last_guess := .jstr "Dog",
      is_mod := .jbool true, mod_username := .jstr "m" }
    [("animal", "Cat")] (by decide) rfl
  exact ⟨h.1, by rfl⟩

/-- Looking up an absent key with `.get` yields `None`. -/
theorem getD_eq_jnull {fs : List (String × JVal)} {k : String}
    (h : (fs.lookup k).isSome = false) : getD fs k = .jnull := by
  unfold getD
  rcases hl : fs.lookup k with _ | v
  · rfl
  · rw [hl] at h
    simp at h

/-- Inversion for `asObj`: a successful `.get` means the value is a dict. -/
theorem asObj_ok {j : JVal} {fs : List (String × JVal)} (h : asObj j = .ok fs) :
    j = .jobj fs := by
  cases j <;> simp [asObj] at h
  rw [h]

/-- The shared caching block leaves `top_predictions` unchanged when the
state has no such key. -/
theorem cacheFromState_tp (sess : Sess) (fs : List (String × JVal))
    (h : (fs.lookup "top_predictions").isSome = false) :
    (cacheFromState sess fs).top_predictions = sess.top_predictions := by
  have hn : ¬ (truthy JVal.jnull = true) := by decide
  simp only [cacheFromState]
  rw [getD_eq_jnull h, if_neg hn]
  split <;> rfl

/-- The shared caching block leaves `last_guess` unchanged when the state
has no `guess` key. -/
theorem cacheFromState_lg (sess : Sess) (fs : List (String × JVal))
    (h : (fs.lookup "guess").isSome = false) :
    (cacheFromState sess fs).last_guess = sess.last_guess := by
  have hn : ¬ (truthy JVal.jnull = true) := by decide
  simp only [cacheFromState]
  rw [getD_eq_jnull h, if_neg hn]
  split <;> rfl

/-- Session shape of `/play`: the session is either untouched or updated
by the shared caching block from the question response. -/
theorem play_game_sess_cases (cfg : Option String) (up : Upstream) (sess : Sess) :
    (play_game cfg up sess).sess = sess ∨
    ∃ fs, (get_game_server_data cfg up ("/question/" ++ pyStr sess.game_session_id)).1 =
        .jobj fs ∧
      (play_game cfg up sess).sess = cacheFromState sess fs := by
  unfold play_game
  dsimp only
  split
  · exact Or.inl rfl
  · split
    · exact Or.inl rfl
    next fs hfs =>
      split
      · exact Or.inl rfl
      · exact Or.inr ⟨fs, asObj_ok hfs, rfl⟩

/-- Session shape of `/api/answer`: untouched, or updated by the shared
caching block from the question response. -/
theorem api_answer_sess_cases (cfg : Option String) (up : Upstream) (sess : Sess)
    (req : JVal) :
    (api_answer cfg up sess req).sess = sess ∨
    ∃ nfs, (get_game_server_data cfg up ("/question/" ++ pyStr sess.game_session_id)).1 =
        .jobj nfs ∧
      (api_answer cfg up sess req).sess = cacheFromState sess nfs := by
  unfold api_answer
  dsimp only
  split
  · exact Or.inl rfl
  · split
    · exact Or.inl rfl
    · split
      · exact Or.inl rfl
      · split
        · exact Or.inl rfl
        · split
          · exact Or.inl rfl
          · split
            · exact Or.inl rfl
            next nfs hnfs =>
              split
              · exact Or.inl rfl
              · exact Or.inr ⟨nfs, asObj_ok hnfs, rfl⟩

/-- Session shape of `/api/continue_game`: untouched, or updated by the
shared caching block from the question response. -/
theorem api_continue_game_sess_cases (cfg : Option String) (up : Upstream) (sess : Sess) :
    (api_continue_game cfg up sess).sess = sess ∨
    ∃ nfs, (get_game_server_data cfg up ("/question/" ++ pyStr sess.game_session_id)).1 =
        .jobj nfs ∧
      (api_continue_game cfg up sess).sess = cacheFromState sess nfs := by
  unfold api_continue_game
  dsimp only
  split
  · exact Or.inl rfl
  · split
    · exact Or.inl rfl
    · split
      · exact Or.inl rfl
      · split
        · exact Or.inl rfl
        next nfs hnfs =>
          split
          · exact Or.inl rfl
          · exact Or.inr ⟨nfs, asObj_ok hnfs, rfl⟩

/-- Session shape of `/api/undo`: untouched, or updated by the shared
caching block from the undo response. -/
theorem api_undo_sess_cases (cfg : Option String) (up : Upstream) (sess : Sess) :
    (api_undo cfg up sess).sess = sess ∨
    ∃ ufs, (post_game_server_data cfg up ("/undo/" ++ pyStr sess.game_session_id)
        (.jobj [])).1 = .jobj ufs ∧
      (api_undo cfg up sess).sess = cacheFromState sess ufs := by
  unfold api_undo
  dsimp only
  split
  · exact Or.inl rfl
  · split
    · exact Or.inl rfl
    next ufs hufs =>
      split
      · exact Or.inl rfl
      · exact Or.inr ⟨ufs, asObj_ok hufs, rfl⟩

/-- Unfolding of `hasKey` on object values. -/
theorem hasKey_false {fs : List (String × JVal)} {k : String}
    (h : hasKey (.jobj fs) k = false) : (fs.lookup k).isSome = false := by
  simpa [hasKey] using h

/-- C10: for each caching route, when the relevant upstream response
omits `top_predictions` or `guess`, the session keeps its previously
stored value of the corresponding field (it is not cleared). -/
theorem c10_cache_preservation (cfg : Option String) (up : Upstream) (sess : Sess)
    (req : JVal) :
    (hasKey (get_game_server_data cfg up ("/question/" ++ pyStr sess.game_session_id)).1
        "top_predictions" = false →
      (play_game cfg up sess).sess.top_predictions = sess.top_predictions) ∧
    (hasKey (get_game_server_data cfg up ("/question/" ++ pyStr sess.game_session_id)).1
        "guess" = false →
      (play_game cfg up sess).sess.last_guess = sess.last_guess) ∧
    (hasKey (get_game_server_data cfg up ("/question/" ++ pyStr sess.game_session_id)).1
        "top_predictions" = false →
      (api_answer cfg up sess req).sess.top_predictions = sess.top_predictions) ∧
    (hasKey (get_game_server_data cfg up ("/question/" ++ pyStr sess.game_session_id)).1
        "guess" = false →
      (api_answer cfg up sess req).sess.last_guess = sess.last_guess) ∧
    (hasKey (get_game_server_data cfg up ("/question/" ++ pyStr sess.game_session_id)).1
        "top_predictions" = false →
      (api_continue_game cfg up sess).sess.top_predictions = sess.top_predictions) ∧
    (hasKey (get_game_server_data cfg up ("/question/" ++ pyStr sess.game_session_id)).1
        "guess" = false →
      (api_continue_game cfg up sess).sess.last_guess = sess.last_guess) ∧
    (hasKey (post_game_server_data cfg up ("/undo/" ++ pyStr sess.game_session_id)
        (.jobj [])).1 "top_predictions" = false →
      (api_undo cfg up sess).sess.top_predictions = sess.top_predictions) ∧
    (hasKey (post_game_server_data cfg up ("/undo/" ++ pyStr sess.game_session_id)
        (.jobj [])).1 "guess" = false →
      (api_undo cfg up sess).sess.last_guess = sess.last_guess) := by
  refine ⟨?_, ?_, ?_, ?_, ?_, ?_, ?_, ?_⟩ <;> intro h
  · rcases play_game_sess_cases cfg up sess with h1 | ⟨fs, hfs, h2⟩
    · rw [h1]
    · rw [h2]
      exact cacheFromState_tp sess fs (hasKey_false (hfs ▸ h))
  · rcases play_game_sess_cases cfg up sess with h1 | ⟨fs, hfs, h2⟩
    · rw [h1]
    · rw [h2]
      exact cacheFromState_lg sess fs (hasKey_false (hfs ▸ h))
  · rcases api_answer_sess_cases cfg up sess req with h1 | ⟨fs, hfs, h2⟩
    · rw [h1]
    · rw [h2]
      exact cacheFromState_tp sess fs (hasKey_false (hfs ▸ h))
  · rcases api_answer_sess_cases cfg up sess req with h1 | ⟨fs, hfs, h2⟩
    · rw [h1]
    · rw [h2]
      exact cacheFromState_lg sess fs (hasKey_false (hfs ▸ h))
  · rcases api_continue_game_sess_cases cfg up sess with h1 | ⟨fs, hfs, h2⟩
    · rw [h1]
    · rw [h2]
      exact cacheFromState_tp sess fs (hasKey_false (hfs ▸ h))
  · rcases api_continue_game_sess_cases cfg up sess with h1 | ⟨fs, hfs, h2⟩
    · rw [h1]
    · rw [h2]
      exact cacheFromState_lg sess fs (hasKey_false (hfs ▸ h))
  · rcases api_undo_sess_cases cfg up sess with h1 | ⟨fs, hfs, h2⟩
    · rw [h1]
    · rw [h2]
      exact cacheFromState_tp sess fs (hasKey_false (hfs ▸ h))
  · rcases api_undo_sess_cases cfg up sess with h1 | ⟨fs, hfs, h2⟩
    · rw [h1]
    · rw [h2]
      exact cacheFromState_lg sess fs (hasKey_false (hfs ▸ h))

/-- A concrete upstream whose responses carry neither `top_predictions`
nor `guess`. -/
def upC10 : Upstream :=
  ⟨fun _ => .resp 200 (some (.jobj [("question", .jstr "Does it fly?")])),
   fun _ _ => .resp 200 (some (.jobj [("status", .jstr "continuing")]))⟩

/-- A concrete session with previously cached prediction state. -/
def sessC10 : Sess :=
  { game_session_id := .jstr "s1", top_predictions := .jstr "[1]",
    last_guess := .jstr "Dog" }

/-- C10 witness: the theorem applied at a concrete upstream and session,
showing the cached fields survive. -/
theorem c10_cache_preservation_witness :
    (play_game (some "http://g") upC10 sessC10).sess.top_predictions = .jstr "[1]" ∧
    (play_game (some "http://g") upC10 sessC10).sess.last_guess = .jstr "Dog" ∧
    (api_answer (some "http://g") upC10 sessC10 (.jobj [])).sess.top_predictions =
      .jstr "[1]" ∧
    (api_answer (some "http://g") upC10 sessC10 (.jobj [])).sess.last_guess = .jstr "Dog" ∧
    (api_continue_game (some "http://g") upC10 sessC10).sess.top_predictions =
      .jstr "[1]" ∧
    (api_continue_game (some "http://g") upC10 sessC10).sess.last_guess = .jstr "Dog" ∧
    (api_undo (some "http://g") upC10 sessC10).sess.top_predictions = .jstr "[1]" ∧
    (api_undo (some "http://g") upC10 sessC10).sess.last_guess = .jstr "Dog" := by
  have h := c10_cache_preservation (some "http://g") upC10 sessC10 (.jobj [])
  exact ⟨h.1 (by decide), h.2.1 (by decide), h.2.2.1 (by decide), h.2.2.2.1 (by decide),
    h.2.2.2.2.1 (by decide), h.2.2.2.2.2.1 (by decide), h.2.2.2.2.2.2.1 (by decide),
    h.2.2.2.2.2.2.2 (by decide)⟩

/-- Every element surviving the monadic filter passed its test. -/
theorem filterExcept_mem (f : JVal → Except String Bool) :
    ∀ (xs l : List JVal), filterExcept f xs = .ok l → ∀ p ∈ l, f p = .ok true := by
  intro xs
  induction xs with
  | nil =>
    intro l h p hp
    simp [filterExcept] at h
    subst h
    simp at hp
  | cons x xs ih =>
    intro l h p hp
    unfold filterExcept at h
    rcases hf : f x with e | b <;> rw [hf] at h
    · exact absurd h (by simp)
    · rcases hr : filterExcept f xs with e2 | rest <;> rw [hr] at h
      · exact absurd h (by simp)
      · simp only [Except.ok.injEq] at h
        subst h
        cases b with
        | false => exact ih rest hr p (by simpa using hp)
        | true =>
          simp only [if_true] at hp
          rcases List.mem_cons.mp hp with rfl | hp2
          · exact hf
          · exact ih rest hr p hp2

/-- Inversion of a passing `/isitthis` filter step: the entry is a dict
whose `animal` is a truthy string differing case-insensitively from the
rejected guess. -/
theorem entryStep_true {lg p : JVal} (h : entryStep lg p = .ok true) :
    ∃ fs a, p = .jobj fs ∧ getD fs "animal" = .jstr a ∧ a ≠ "" ∧
      ∀ t, (if truthy lg then lg else .jstr "") = .jstr t → lowerStr a ≠ lowerStr t := by
  unfold entryStep at h
  rcases ho : asObj p with e | fs <;> rw [ho] at h
  · exact absurd h (by simp)
  · dsimp only at h
    split at h
    · split at h
      next s hs =>
        split at h
        next t0 ht0 =>
          simp only [Except.ok.injEq] at h
          refine ⟨fs, s, asObj_ok ho, hs, ?_, ?_⟩
          · have htr : truthy (getD fs "animal") = true := by assumption
            rw [hs] at htr
            simpa [truthy] using htr
          · intro t ht
            rw [ht0] at ht
            cases ht
            simpa using h
        next hne => exact absurd h (by simp)
      next hne => exact absurd h (by simp)
    · exact absurd h (by simp)

/-- C6: the `/isitthis` filtered list never contains an entry whose name
case-insensitively equals the session last_guess, entries without a
(truthy) name are excluded, and an unparsable cached list renders as the
empty list. -/
theorem c6_isitthis (sess : Sess) :
    (∀ s, sess.top_predictions = .jstr s → json_loads s = none →
      (is_it_this sess).resp = .ok (.page "isitthis.html" [("predictions", .jarr [])])) ∧
    (∀ l, (is_it_this sess).resp =
        .ok (.page "isitthis.html" [("predictions", .jarr l)]) →
      ∀ p ∈ l, ∃ fs a, p = .jobj fs ∧ getD fs "animal" = .jstr a ∧ a ≠ "" ∧
        ∀ t, (if truthy sess.last_guess then sess.last_guess else .jstr "") = .jstr t →
          lowerStr a ≠ lowerStr t) := by
  constructor
  · intro s h1 h2
    simp [is_it_this, h1, h2]
  · intro l h p hp
    unfold is_it_this at h
    dsimp only at h
    split at h
    next s hs =>
      split at h
      · simp at h
        rw [h] at hp
        simp at hp
      next v hv =>
        split at h
        · exact absurd h (by simp)
        next xs hxs =>
          split at h
          · exact absurd h (by simp)
          next l0 hl0 =>
            simp at h
            rw [← h] at hp
            exact entryStep_true (filterExcept_mem _ xs l0 hl0 p hp)
    next hns => exact absurd h (by simp)

/-- C6 witness: the theorem applied to an unparsable cache and to a
concrete two-entry cache filtered against last_guess CAT. -/
theorem c6_isitthis_witness :
    (is_it_this { top_predictions := .jstr "[oops" }).resp =
      .ok (.page "isitthis.html" [("predictions", .jarr [])]) ∧
    (∃ fs a, JVal.jobj [("animal", JVal.jstr "dog")] = JVal.jobj fs ∧
      getD fs "animal" = .jstr a ∧ a ≠ "" ∧
      ∀ t, (if truthy (JVal.jstr "CAT") then JVal.jstr "CAT" else JVal.jstr "") = .jstr t →
        lowerStr a ≠ lowerStr t) := by
  constructor
  · exact (c6_isitthis { top_predictions := .jstr "[oops" }).1 "[oops" rfl (by decide)
  · exact (c6_isitthis
      { top_predictions := .jstr "[\x7b\"animal\": \"Cat\"\x7d, \x7b\"animal\": \"dog\"\x7d]",
        last_guess := .jstr "CAT" }).2
      [.jobj [("animal", .jstr "dog")]] (by decide) (.jobj [("animal", .jstr "dog")])
      (by simp)

/-- Any call issued by the POST helper carries exactly the given body. -/
theorem post_calls_shape {cfg : Option String} {up : Upstream} {ep : String} {p : JVal}
    {c : UpCall} (h : c ∈ (post_game_server_data cfg up ep p).2) :
    ∃ url, c = .post url p := by
  unfold post_game_server_data at h
  rcases cfg with _ | base
  · simp at h
  · dsimp only at h
    split at h
    · simp at h
    · simp at h
      exact ⟨_, h⟩

/-- Every upstream call of the submission loop belongs to one of its
payloads. -/
theorem submitAll_calls {cfg : Option String} {up : Upstream} {nk : String} :
    ∀ (ps : List JVal) (c : UpCall), c ∈ (submitAll cfg up nk ps).calls →
      ∃ p ∈ ps, c ∈ (post_game_server_data cfg up "/suggest_feature" p).2 := by
  intro ps
  induction ps with
  | nil =>
    intro c hc
    simp [submitAll] at hc
  | cons p ps ih =>
    intro c hc
    unfold submitAll at hc
    dsimp only at hc
    split at hc
    · exact ⟨p, List.mem_cons_self p ps, hc⟩
    · split at hc
      · rcases List.mem_append.mp hc with h1 | h2
        · exact ⟨p, List.mem_cons_self p ps, h1⟩
        · obtain ⟨q, hq, hcq⟩ := ih c h2
          exact ⟨q, List.mem_cons_of_mem p hq, hcq⟩
      · split at hc <;>
          rcases List.mem_append.mp hc with h1 | h2
        · exact ⟨p, List.mem_cons_self p ps, h1⟩
        · obtain ⟨q, hq, hcq⟩ := ih c h2
          exact ⟨q, List.mem_cons_of_mem p hq, hcq⟩
        · exact ⟨p, List.mem_cons_self p ps, h1⟩
        · obtain ⟨q, hq, hcq⟩ := ih c h2
          exact ⟨q, List.mem_cons_of_mem p hq, hcq⟩

/-- Inversion of a produced `/submit_question` payload: the form entry is
an answer key whose value is a non-idk vocabulary answer, and the payload
carries its fuzzy value. -/
theorem payloadOfEntry_some {d fe qt : String} {kv : String × String} {p : JVal}
    (h : payloadOfEntry d fe qt kv = some p) :
    answerForKey kv.1 = true ∧ kv.2 ≠ "idk" ∧
    ∃ fv, FUZZY_MAP.lookup kv.2 = some fv ∧ getJ p "fuzzy_value" = .jnum fv := by
  unfold payloadOfEntry at h
  split at h
  next hak =>
    split at h
    next => exact absurd h (by simp)
    next hidk =>
      split at h
      next => exact absurd h (by simp)
      next fv hfv =>
        simp only [Option.some.injEq] at h
        subst h
        exact ⟨hak, hidk, fv, hfv, rfl⟩
  next => exact absurd h (by simp)

/-- Inversion of a produced `/submit_teaching` payload: the indexed
answer exists, is not idk, lies in the vocabulary, and the payload
carries its fuzzy value. -/
theorem teachingPayloadAt_some {form : List (String × String)} {d a : String} {i : Nat}
    {p : JVal} (h : teachingPayloadAt form d a i = some p) :
    ∃ ans fv, formGet form ("answer_" ++ toString i) = some ans ∧ ans ≠ "idk" ∧
      FUZZY_MAP.lookup ans = some fv ∧ getJ p "fuzzy_value" = .jnum fv := by
  unfold teachingPayloadAt at h
  split at h
  · dsimp only at h
    split at h
    · exact absurd h (by simp)
    next hni =>
      split at h
      next fv hfv =>
        simp only [Option.some.injEq] at h
        subst h
        obtain ⟨ans, hans, hlk⟩ := Option.bind_eq_some.mp hfv
        refine ⟨ans, fv, hans, ?_, hlk, ?_⟩
        · intro hcontra
          exact hni (hcontra ▸ hans)
        · rfl
      · exact absurd h (by simp)
  · exact absurd h (by simp)

/-- C7: FUZZY_MAP is total over exactly the five-word vocabulary with the
stated values, and every `/suggest_feature` call either route makes
originates from an answer inside that vocabulary (so a non-idk answer
outside it is never submitted). -/
theorem c7_fuzzy_vocabulary :
    (FUZZY_MAP.lookup "yes" = some 1 ∧ FUZZY_MAP.lookup "probably" = some 0.75 ∧
      FUZZY_MAP.lookup "sometimes" = some 0.5 ∧ FUZZY_MAP.lookup "rarely" = some 0.25 ∧
      FUZZY_MAP.lookup "no" = some 0 ∧ FUZZY_MAP.length = 5) ∧
    (∀ cfg up sess form c, c ∈ (submit_question cfg up sess form).calls →
      ∃ kv fv url p, kv ∈ form ∧ answerForKey kv.1 = true ∧ kv.2 ≠ "idk" ∧
        FUZZY_MAP.lookup kv.2 = some fv ∧ c = .post url p ∧
        getJ p "fuzzy_value" = .jnum fv) ∧
    (∀ cfg up sess form c, c ∈ (submit_teaching cfg up sess form).calls →
      ∃ i a fv url p, i < 5 ∧ formGet form ("answer_" ++ toString i) = some a ∧
        a ≠ "idk" ∧ FUZZY_MAP.lookup a = some fv ∧ c = .post url p ∧
        getJ p "fuzzy_value" = .jnum fv) := by
  refine ⟨⟨rfl, rfl, rfl, rfl, rfl, rfl⟩, ?_, ?_⟩
  · intro cfg up sess form c hc
    unfold submit_question at hc
    dsimp only at hc
    split at hc
    · simp at hc
    · split at hc
      · simp at hc
      · split at hc <;>
        · obtain ⟨p, hp, hcp⟩ := submitAll_calls _ c hc
          obtain ⟨kv, hkv, hpe⟩ := List.mem_filterMap.mp hp
          obtain ⟨hak, hidk, fv, hlk, hfz⟩ := payloadOfEntry_some hpe
          obtain ⟨url, hurl⟩ := post_calls_shape hcp
          exact ⟨kv, fv, url, p, hkv, hak, hidk, hlk, hurl, hfz⟩
  · intro cfg up sess form c hc
    unfold submit_teaching at hc
    dsimp only at hc
    split at hc
    · simp at hc
    · split at hc <;>
      · obtain ⟨p, hp, hcp⟩ := submitAll_calls _ c hc
        obtain ⟨i, hi, hpe⟩ := List.mem_filterMap.mp hp
        obtain ⟨ans, fv, hans, hidk, hlk, hfz⟩ := teachingPayloadAt_some hpe
        obtain ⟨url, hurl⟩ := post_calls_shape hcp
        exact ⟨i, ans, fv, url, p, List.mem_range.mp hi, hans, hidk, hlk, hurl, hfz⟩

/-- A concrete `/submit_question` form with one valid answer. -/
def formC7 : List (String × String) :=
  [("domain_name", "animals"), ("animal", "Cat"), ("feature_name", "has_fur"),
   ("question_text", "Does it have fur?"), ("answer_for_Cat", "yes")]

/-- An upstream accepting every suggestion. -/
def upC7 : Upstream :=
  ⟨fun _ => .netFail "x", fun _ _ => .resp 200 (some (.jobj [("status", .jstr "ok")]))⟩

/-- The one call the concrete form produces. -/
def callC7 : UpCall :=
  .post "http://g/suggest_feature" (.jobj [("domain_name", .jstr "animals"),
    ("feature_name", .jstr "has_fur"), ("question_text", .jstr "Does it have fur?"),
    ("item_name", .jstr "Cat"), ("fuzzy_value", .jnum 1)])

/-- C7 witness: the theorem applied to the one call of a concrete form. -/
theorem c7_fuzzy_vocabulary_witness :
    ∃ kv fv url p, kv ∈ formC7 ∧ answerForKey kv.1 = true ∧ kv.2 ≠ "idk" ∧
      FUZZY_MAP.lookup kv.2 = some fv ∧ callC7 = .post url p ∧
      getJ p "fuzzy_value" = .jnum fv :=
  c7_fuzzy_vocabulary.2.1 (some "http://g") upC7 {} formC7 callC7 (by decide)

/-- C8: a teaching form whose five answers are all idk yields no upstream
call and flashes the success message reporting zero submissions, then
redirects to the thank-you page. -/
theorem c8_all_idk (cfg : Option String) (up : Upstream) (sess : Sess)
    (form : List (String × String)) (d a : String)
    (hd : formGet form "domain_name" = some d) (hd2 : d ≠ "")
    (ha : formGet form "animal_name" = some a) (ha2 : a ≠ "")
    (hidk : ∀ i, i < 5 → formGet form ("answer_" ++ toString i) = some "idk") :
    submit_teaching cfg up sess form =
      ⟨.ok (.redirectTo (urlFor "thank_you" [("animal", a), ("domain", d)])), sess, [],
        [("Thank you! Successfully submitted 0 new facts!", "success")]⟩ := by
  have hnone : ∀ i ∈ List.range 5, teachingPayloadAt form d a i = none := by
    intro i hi
    unfold teachingPayloadAt
    split
    · dsimp only
      rw [hidk i (List.mem_range.mp hi)]
      simp
    · rfl
  have hpl : (List.range 5).filterMap (teachingPayloadAt form d a) = [] :=
    List.filterMap_eq_nil_iff.mpr hnone
  unfold submit_teaching
  dsimp only
  rw [hd, ha]
  simp only [Option.getD_some, formTruthy]
  rw [hpl]
  simp [submitAll, hd2, ha2]
  rfl

/-- A concrete teaching form answering idk to all five questions. -/
def formC8 : List (String × String) :=
  [("domain_name", "animals"), ("animal_name", "Cat"),
   ("feature_name_0", "f0"), ("question_0", "q0"), ("answer_0", "idk"),
   ("feature_name_1", "f1"), ("question_1", "q1"), ("answer_1", "idk"),
   ("feature_name_2", "f2"), ("question_2", "q2"), ("answer_2", "idk"),
   ("feature_name_3", "f3"), ("question_3", "q3"), ("answer_3", "idk"),
   ("feature_name_4", "f4"), ("question_4", "q4"), ("answer_4", "idk")]

/-- An upstream accepting every suggestion (unused, as no call is made). -/
def upC8 : Upstream :=
  ⟨fun _ => .netFail "x", fun _ _ => .resp 200 (some (.jobj [("status", .jstr "ok")]))⟩

/-- C8 witness: the theorem applied to the all-idk concrete form. -/
theorem c8_all_idk_witness :
    submit_teaching (some "http://g") upC8 {} formC8 =
      ⟨.ok (.redirectTo (urlFor "thank_you" [("animal", "Cat"), ("domain", "animals")])),
        {}, [], [("Thank you! Successfully submitted 0 new facts!", "success")]⟩ :=
  c8_all_idk (some "http://g") upC8 {} formC8 "animals" "Cat" (by decide) (by decide)
    (by decide) (by decide) (by decide)

/-- A concrete upstream: the continue endpoint reports `continuing`,
other POSTs report a rejected guess carrying a `guess` field. -/
def upC2 : Upstream :=
  ⟨fun _ => .resp 200 (some (.jobj [("question", .jstr "q?")])),
   fun u _ =>
     if u = "http://g/continue/s1" then
       .resp 200 (some (.jobj [("status", .jstr "continuing")]))
     else
       .resp 200 (some (.jobj [("status", .jstr "ask_to_continue"),
         ("guess", .jstr "Dog")]))⟩

/-- A session holding a game id and an empty cache. -/
def sessC2 : Sess := { game_session_id := .jstr "s1" }

/-- C2, counterexample: `/api/continue_game` performs two upstream calls,
not exactly one; and `/api/reject_guess` relays a response whose `guess`
is truthy yet leaves the session cache untouched, whereas the `/play`
caching block applied to that same response would store the guess. -/
theorem c2_counterexample :
    (api_continue_game (some "http://g") upC2 sessC2).calls.length = 2 ∧
    (api_reject_guess (some "http://g") upC2 sessC2
      (.jobj [("guess", .jstr "Dog")])).resp =
      .ok (.json 200 (.jobj [("status", .jstr "ask_to_continue"),
        ("guess", .jstr "Dog")])) ∧
    (api_reject_guess (some "http://g") upC2 sessC2
      (.jobj [("guess", .jstr "Dog")])).sess.last_guess = .jnull ∧
    (cacheFromState sessC2 [("status", .jstr "ask_to_continue"),
      ("guess", .jstr "Dog")]).last_guess = .jstr "Dog" := by
  refine ⟨?_, ?_, ?_, ?_⟩ <;> rfl

/-- C2 (amended): with a game id present, `/api/reject_guess` issues only
the reject POST and relays its JSON without touching the session;
`/api/continue_game` issues the continue POST and, exactly when it
reports `continuing`, a question GET whose JSON it relays with
`/play`-style cache updates (500 after one call otherwise); `/api/undo`
issues one POST and relays its JSON with `/play`-style cache updates. -/
theorem c2_amended (cfg : Option String) (up : Upstream) (sess : Sess) (req : JVal)
    (h : truthy sess.game_session_id = true) :
    (∀ rf, asObj req = .ok rf → truthy (getD rf "guess") = true →
      (api_reject_guess cfg up sess req).calls =
        (post_game_server_data cfg up ("/reject/" ++ pyStr sess.game_session_id)
          (.jobj [("animal_name", getD rf "guess")])).2 ∧
      (api_reject_guess cfg up sess req).sess = sess ∧
      (∀ rfs, asObj (post_game_server_data cfg up
            ("/reject/" ++ pyStr sess.game_session_id)
            (.jobj [("animal_name", getD rf "guess")])).1 = .ok rfs →
        truthy (getD rfs "error") = false →
        (api_reject_guess cfg up sess req).resp = .ok (.json 200 (.jobj rfs)))) ∧
    (∀ cfs, asObj (post_game_server_data cfg up
          ("/continue/" ++ pyStr sess.game_session_id) (.jobj [])).1 = .ok cfs →
      (getD cfs "status" = .jstr "continuing" →
        (api_continue_game cfg up sess).calls =
          (post_game_server_data cfg up ("/continue/" ++ pyStr sess.game_session_id)
            (.jobj [])).2 ++
          (get_game_server_data cfg up ("/question/" ++ pyStr sess.game_session_id)).2 ∧
        (∀ nfs, asObj (get_game_server_data cfg up
              ("/question/" ++ pyStr sess.game_session_id)).1 = .ok nfs →
          truthy (getD nfs "error") = false →
          (api_continue_game cfg up sess).sess = cacheFromState sess nfs ∧
          (api_continue_game cfg up sess).resp = .ok (.json 200 (.jobj nfs)))) ∧
      (getD cfs "status" ≠ .jstr "continuing" →
        (api_continue_game cfg up sess).calls =
          (post_game_server_data cfg up ("/continue/" ++ pyStr sess.game_session_id)
            (.jobj [])).2 ∧
        (api_continue_game cfg up sess).sess = sess ∧
        (api_continue_game cfg up sess).resp = .ok (.json 500
          (.jobj [("error", pyGetDefault cfs "details"
            (.jstr "Failed to set continue mode"))])))) ∧
    (∀ ufs, asObj (post_game_server_data cfg up
          ("/undo/" ++ pyStr sess.game_session_id) (.jobj [])).1 = .ok ufs →
      (api_undo cfg up sess).calls =
        (post_game_server_data cfg up ("/undo/" ++ pyStr sess.game_session_id)
          (.jobj [])).2 ∧
      (truthy (getD ufs "error") = false →
        (api_undo cfg up sess).sess = cacheFromState sess ufs ∧
        (api_undo cfg up sess).resp = .ok (.json 200 (.jobj ufs)))) := by
  refine ⟨?_, ?_, ?_⟩
  · intro rf hobj hguess
    refine ⟨?_, ?_, ?_⟩
    · rcases hro : asObj (post_game_server_data cfg up
          ("/reject/" ++ pyStr sess.game_session_id)
          (.jobj [("animal_name", getD rf "guess")])).1 with e | rfs
      · simp [api_reject_guess, h, hobj, hguess, hro]
      · by_cases he : truthy (getD rfs "error") = true
        · simp [api_reject_guess, h, hobj, hguess, hro, he]
        · simp [api_reject_guess, h, hobj, hguess, hro, he]
    · rcases hro : asObj (post_game_server_data cfg up
          ("/reject/" ++ pyStr sess.game_session_id)
          (.jobj [("animal_name", getD rf "guess")])).1 with e | rfs
      · simp [api_reject_guess, h, hobj, hguess, hro]
      · by_cases he : truthy (getD rfs "error") = true
        · simp [api_reject_guess, h, hobj, hguess, hro, he]
        · simp [api_reject_guess, h, hobj, hguess, hro, he]
    · intro rfs hro he
      have hb := asObj_ok hro
      simp [api_reject_guess, h, hobj, hguess, hro, he]
      rw [hb]
  · intro cfs hco
    constructor
    · intro hst
      constructor
      · rcases hqo : asObj (get_game_server_data cfg up
            ("/question/" ++ pyStr sess.game_session_id)).1 with e | nfs
        · simp [api_continue_game, h, hco, hst, hqo]
        · by_cases he : truthy (getD nfs "error") = true
          · simp [api_continue_game, h, hco, hst, hqo, he]
          · simp [api_continue_game, h, hco, hst, hqo, he]
      · intro nfs hqo he
        have hb := asObj_ok hqo
        constructor
        · simp [api_continue_game, h, hco, hst, hqo, he]
        · simp [api_continue_game, h, hco, hst, hqo, he]
          rw [hb]
    · intro hst
      refine ⟨?_, ?_, ?_⟩ <;> simp [api_continue_game, h, hco, hst]
  · intro ufs huo
    constructor
    · by_cases he : truthy (getD ufs "error") = true
      · simp [api_undo, h, huo, he]
      · simp [api_undo, h, huo, he]
    · intro he
      have hb := asObj_ok huo
      constructor
      · simp [api_undo, h, huo, he]
      · simp [api_undo, h, huo, he]
        rw [hb]

/-- C2 witness: the amended theorem applied at a concrete upstream:
reject leaves the session unchanged, continue makes its two calls, and
undo applies the shared caching block. -/
theorem c2_amended_witness :
    (api_reject_guess (some "http://g") upC2 sessC2
      (.jobj [("guess", .jstr "Dog")])).sess = sessC2 ∧
    (api_continue_game (some "http://g") upC2 sessC2).calls =
      [.post "http://g/continue/s1" (.jobj []), .get "http://g/question/s1"] ∧
    (api_undo (some "http://g") upC2 sessC2).sess =
      cacheFromState sessC2 [("status", .jstr "ask_to_continue"),
        ("guess", .jstr "Dog")] := by
  have h := c2_amended (some "http://g") upC2 sessC2 (.jobj [("guess", .jstr "Dog")]) rfl
  refine ⟨(h.1 [("guess", .jstr "Dog")] rfl (by decide)).2.1, ?_, ?_⟩
  · have h2 := (h.2.1 [("status", .jstr "continuing")] (by decide)).1 (by decide)
    exact h2.1.trans (by decide)
  · have h3 := h.2.2 [("status", .jstr "ask_to_continue"), ("guess", .jstr "Dog")]
      (by decide)
    exact (h3.2 (by decide)).1

/-- A concrete upstream whose question endpoint fails with HTTP 500. -/
def upC3 : Upstream :=
  ⟨fun _ => .resp 500 none,
   fun _ _ => .resp 200 (some (.jobj [("status", .jstr "asked")]))⟩

/-- A session holding a game id. -/
def sessC3 : Sess := { game_session_id := .jstr "s1" }

/-- C3, counterexample: the upstream answer response has status `asked`
(not `guess_correct`), yet because the subsequent question fetch errors,
`/api/answer` returns a body containing a `redirect_url` field — so
a redirect instruction is not returned only on `guess_correct`. -/
theorem c3_counterexample :
    (api_answer (some "http://g") upC3 sessC3 (.jobj [])).resp =
      .ok (.json 200 (.jobj [("redirect_url",
        .jstr "/error?message=Your session has expired or an error occurred. (500 Server Error for url: http://g/question/s1)")])) ∧
    getJ (post_game_server_data (some "http://g") upC3 "/answer/s1"
      (answerPayload [])).1 "status" = .jstr "asked" := by
  constructor <;> rfl

/-- C3 (amended): `/api/answer` posts the answer and returns the
win-confirmation redirect exactly when the answer status is
`guess_correct`; an answer error yields a 500 payload with no question
fetch; otherwise the question state is fetched and relayed with
`/play`-style caching, except that a question-fetch error produces a
JSON `redirect_url` to the error page. -/
theorem c3_amended (cfg : Option String) (up : Upstream) (sess : Sess) (req : JVal)
    (rf : List (String × JVal)) (h : truthy sess.game_session_id = true)
    (hobj : asObj req = .ok rf) :
    ∀ afs, asObj (post_game_server_data cfg up
        ("/answer/" ++ pyStr sess.game_session_id) (answerPayload rf)).1 = .ok afs →
    ((getD afs "status" = .jstr "guess_correct" →
      (api_answer cfg up sess req).resp = .ok (.json 200 (.jobj [("redirect_url",
        .jstr (urlFor "confirm_win_route" [("animal", pyStr (getD afs "animal"))]))])) ∧
      (api_answer cfg up sess req).calls =
        (post_game_server_data cfg up ("/answer/" ++ pyStr sess.game_session_id)
          (answerPayload rf)).2 ∧
      (api_answer cfg up sess req).sess = sess) ∧
    (getD afs "status" ≠ .jstr "guess_correct" →
      (truthy (getD afs "error") = true →
        (api_answer cfg up sess req).resp = .ok (.json 500 (.jobj [("error",
          pyGetDefault afs "details" (.jstr "Failed to post answer"))])) ∧
        (api_answer cfg up sess req).sess = sess) ∧
      (truthy (getD afs "error") = false →
        ∀ nfs, asObj (get_game_server_data cfg up
            ("/question/" ++ pyStr sess.game_session_id)).1 = .ok nfs →
          (truthy (getD nfs "error") = true →
            (api_answer cfg up sess req).resp = .ok (.json 200 (.jobj [("redirect_url",
              .jstr (urlFor "error" [("message",
                "Your session has expired or an error occurred. ("
                  ++ pyStr (getD nfs "details") ++ ")")]))])) ∧
            (api_answer cfg up sess req).sess = sess) ∧
          (truthy (getD nfs "error") = false →
            (api_answer cfg up sess req).resp = .ok (.json 200 (.jobj nfs)) ∧
            (api_answer cfg up sess req).sess = cacheFromState sess nfs)))) := by
  intro afs hao
  refine ⟨?_, ?_⟩
  · intro hst
    refine ⟨?_, ?_, ?_⟩ <;> simp [api_answer, h, hobj, hao, hst]
  · intro hst
    refine ⟨?_, ?_⟩
    · intro he
      constructor <;> simp [api_answer, h, hobj, hao, hst, he]
    · intro he nfs hqo
      refine ⟨?_, ?_⟩
      · intro hqe
        constructor <;> simp [api_answer, h, hobj, hao, hst, he, hqo, hqe]
      · intro hqe
        have hb := asObj_ok hqo
        constructor
        · simp [api_answer, h, hobj, hao, hst, he, hqo, hqe]
          rw [hb]
        · simp [api_answer, h, hobj, hao, hst, he, hqo, hqe]

/-- A concrete upstream whose answer endpoint reports a correct sneaky
guess. -/
def upC3b : Upstream :=
  ⟨fun _ => .resp 500 none,
   fun _ _ => .resp 200 (some (.jobj [("status", .jstr "guess_correct"),
     ("animal", .jstr "Cat")]))⟩

/-- C3 witness: the amended theorem applied at a correct sneaky guess
(win redirect) and at a failing question fetch (session untouched). -/
theorem c3_amended_witness :
    (api_answer (some "http://g") upC3b sessC3 (.jobj [])).resp =
      .ok (.json 200 (.jobj [("redirect_url",
        .jstr (urlFor "confirm_win_route" [("animal", "Cat")]))])) ∧
    (api_answer (some "http://g") upC3 sessC3 (.jobj [])).sess = sessC3 := by
  constructor
  · exact (((c3_amended (some "http://g") upC3b sessC3 (.jobj []) [] rfl rfl)
      [("status", .jstr "guess_correct"), ("animal", .jstr "Cat")] (by decide)).1
      (by decide)).1
  · exact ((((((c3_amended (some "http://g") upC3 sessC3 (.jobj []) [] rfl rfl)
      [("status", .jstr "asked")] (by decide)).2 (by decide)).2 (by decide))
      [("error", .jstr "Upstream game server request failed"),
       ("details", .jstr "500 Server Error for url: http://g/question/s1")]
      (by decide)).1 (by decide)).2

end Paokinator
